import Mathlib

/-!
Shallow embedding of the robocopilot2.0 repository (the three Python source
files `robocopilot_chat_extension/robocopilot_chat_python/robocopilot_chat.py`,
`robocopilot_chat_extension/robocopilot_chat_python/ui_builder.py`, and
`robocopilot-extension/robocopilot_extension.py`) together with theorems that
settle the frozen claims about the natural-language specification.

Modelling conventions, used uniformly below:
* Python objects are state records; a mutating method becomes a function from
  the state (plus the method arguments) to the new state.
* Host-simulation calls (Isaac Sim world/controller/articulation APIs) and the
  interpreter-supplied strings of exceptions (`str(e)`, `traceback.format_exc()`)
  are opaque to this repository; each operation therefore takes an environment
  record carrying the outcome of every host call it performs (`none` = the call
  returned normally, `some msg` = the call raised an exception whose `str` is
  `msg`).  Control flow around those outcomes is translated from the source.
* `datetime.now().strftime(...)` is modelled by a timestamp string in the
  environment; one timestamp per callback invocation (no claim compares
  distinct timestamps inside one invocation).
* A Python `try`/`except` body is a function returning `state × Option err`:
  the state carries all mutations made before the raise, exactly as attribute
  assignments persist across a raised exception in Python.
* UI widgets (labels, buttons) are modelled by the fields the handlers assign
  (`text`, `enabled`); styling assignments are omitted.  `asyncio.ensure_future`
  calls are recorded in a `scheduled` list.
-/

/-- Python `str.isspace` characters relevant to `str.strip()` / `str.split()`
(ASCII whitespace: space, tab, newline, carriage return, vertical tab,
form feed). -/
def pyIsSpace (c : Char) : Bool :=
  c = ' ' || c = '\t' || c = '\n' || c = '\r' || c = '\x0b' || c = '\x0c'

/-- Python `str.strip()` with no argument: drop leading and trailing
whitespace. -/
def pyStrip (s : String) : String :=
  String.mk (((s.toList.dropWhile pyIsSpace).reverse.dropWhile pyIsSpace).reverse)

/-- Python slice `l[-n:]`: the last `min n (length l)` elements. -/
def takeLast {α : Type} (n : Nat) (l : List α) : List α :=
  l.drop (l.length - n)

/-- A single quote character, used when rendering Python `repr` of strings. -/
def singleQuote : String := String.singleton (Char.ofNat 39)

/-- Python `str(list_of_strings)` as logged by f-strings such as
`f"Available observation keys: {obs_keys}"`. -/
def pyStrListRepr (l : List String) : String :=
  "[" ++ String.intercalate ", " (l.map (fun k => singleQuote ++ k ++ singleQuote)) ++ "]"

/-- A raised Python exception: `str(e)` and `type(e).__name__`. -/
structure PyExn where
  msg : String
  ty : String
deriving DecidableEq, Repr

/-- Sequencing of statements inside a `try` block: once a statement raises,
the following statements do not run, but mutations already made persist. -/
def pyBind {σ ε : Type} (r : σ × Option ε) (f : σ → σ × Option ε) : σ × Option ε :=
  match r with
  | (s, some e) => (s, some e)
  | (s, none) => f s

/-- An `except Exception as e:` clause that swallows the exception: run the
handler on the state the body left behind. -/
def pyCatch {σ ε : Type} (handler : σ → ε → σ) (r : σ × Option ε) : σ :=
  match r with
  | (s, none) => s
  | (s, some e) => handler s e

/-- An `except Exception as e:` clause ending in `raise`: run the handler,
then propagate the exception. -/
def pyCatchReraise {σ ε : Type} (handler : σ → ε → σ) (r : σ × Option ε) :
    σ × Option ε :=
  match r with
  | (s, none) => (s, none)
  | (s, some e) => (handler s e, some e)

/-! ## The host `World` object (the slice of it the repository touches) -/

/-- The Isaac Sim `World` singleton, reduced to the parts this repository
reads or writes: the play/pause flags and the registered physics-callback
names.  `ui_builder.UIBuilder.world` and `RoboCopilotChat._world` both refer
to `World.instance()`; the model keeps one copy per holding reference, which
no claim below distinguishes. -/
structure WorldSt where
  playing : Bool
  paused : Bool
  callbacks : List String
deriving DecidableEq, Repr

/-- `World.pause()`. -/
def pauseWorld (w : WorldSt) : WorldSt :=
  { w with playing := false, paused := true }

/-- `World.stop()`. -/
def stopWorld (w : WorldSt) : WorldSt :=
  { w with playing := false, paused := false }

/-- `World.play_async()` (the play effect; the await itself is host-driven). -/
def playWorld (w : WorldSt) : WorldSt :=
  { w with playing := true, paused := false }

/-- `World.add_physics_callback(name, fn)`. -/
def addCallback (name : String) (w : WorldSt) : WorldSt :=
  { w with callbacks := if w.callbacks.contains name then w.callbacks else w.callbacks ++ [name] }

/-! ## Chat messages (`ui_builder.py` and `robocopilot_extension.py`) -/

/-- One entry of `self.chat_messages`: the dict
`{"sender": ..., "text": ..., "timestamp": ...}` appended by
`_add_chat_message`. -/
structure ChatMsg where
  sender : String
  text : String
  timestamp : String
deriving DecidableEq, Repr

/-- List-level effect of `_add_chat_message(sender, text)`: append one dict
with the current timestamp (both extensions share this body verbatim). -/
def add_chat_message (sender text ts : String) (msgs : List ChatMsg) : List ChatMsg :=
  msgs ++ [{ sender := sender, text := text, timestamp := ts }]

/-- The per-chunk statement `self.chat_messages[-1]["text"] = full_response`
in `UIBuilder._get_groq_response`: overwrite the text of the most recent
message.  (The handler always appends a message before the loop; on an empty
list the Python subscript would raise, modelled as a no-op never reached.) -/
def setLastText (t : String) : List ChatMsg → List ChatMsg
  | [] => []
  | [m] => [{ m with text := t }]
  | m :: n :: rest => m :: setLastText t (n :: rest)

/-- The operations of `ui_builder.py` that read or write `self.chat_messages`:
`_add_chat_message`, `_update_chat_display` (renders only, list untouched),
the streaming loop body of `_get_groq_response` (carrying the accumulated
`full_response` it assigns), and the reassignment `self.chat_messages = []`
performed by `_on_clear_chat` (ui_builder.py line 571; the stack extension's
`_on_clear_chat` at robocopilot_extension.py line 264 does the same). -/
inductive ChatOp where
  | add (sender text ts : String)
  | display
  | streamChunk (fullResponse : String)
  | clearChat
deriving DecidableEq, Repr

/-- Effect of each chat operation on the `chat_messages` list. -/
def applyChatOp : ChatOp → List ChatMsg → List ChatMsg
  | .add sender text ts, msgs => add_chat_message sender text ts msgs
  | .display, msgs => msgs
  | .streamChunk fullResponse, msgs => setLastText fullResponse msgs
  | .clearChat, _ => []

/-- The success path of `UIBuilder._get_groq_response`: append an empty
assistant message, then for each streamed chunk with non-`None`
`delta.content` accumulate `full_response` and overwrite the last message's
text.  (The `except` branch instead appends one error message via
`_add_chat_message`, i.e. a `ChatOp.add`.) -/
def get_groq_response (ts : String) (chunks : List (Option String))
    (msgs : List ChatMsg) : List ChatMsg :=
  let msgs := add_chat_message "RoboCopilot" "" ts msgs
  (chunks.foldl
    (fun (acc : String × List ChatMsg) c =>
      match c with
      | none => acc
      | some content =>
          let fullResponse := acc.1 ++ content
          (fullResponse, setLastText fullResponse acc.2))
    ("", msgs)).2

/-! ## Chat display rendering (`_update_chat_display`, both extensions) -/

/-- One message as rendered into `self.chat_display`: the header label
(icon, sender, timestamp) and the body label (the text). -/
structure RenderedMsg where
  header : String
  body : String
deriving DecidableEq, Repr

/-- The content of the rebuilt `chat_display` widget: either the welcome
label (empty chat) or one rendered entry per shown message. -/
inductive ChatDisplay where
  | welcome (text : String)
  | messages (items : List RenderedMsg)
deriving DecidableEq, Repr

/-- Rendering of one message in `UIBuilder._update_chat_display`
(`ui_builder.py`): icon "User" for sender "User", otherwise "RoboCopilot". -/
def renderChatMsg (m : ChatMsg) : RenderedMsg :=
  let icon := if m.sender = "User" then "User" else "RoboCopilot"
  { header := icon ++ " " ++ m.sender ++ " (" ++ m.timestamp ++ "):", body := m.text }

/-- `UIBuilder._update_chat_display` (`ui_builder.py`): clear the display,
then either show the welcome label or the entries of
`self.chat_messages[-10:]`.  The method never writes `self.chat_messages`. -/
def update_chat_display (msgs : List ChatMsg) : ChatDisplay :=
  if msgs.isEmpty then
    .welcome "Welcome to RoboCopilot! Load a scene and enter commands to begin."
  else
    .messages ((takeLast 10 msgs).map renderChatMsg)

/-- Rendering of one message in `RoboCopilotUI._update_chat_display`
(`robocopilot_extension.py`). -/
def renderStackMsg (m : ChatMsg) : RenderedMsg :=
  if m.sender = "User" then
    { header := "👤 You (" ++ m.timestamp ++ "):", body := m.text }
  else
    { header := "🤖 RoboCopilot (" ++ m.timestamp ++ "):", body := m.text }

/-- `RoboCopilotUI._update_chat_display` (`robocopilot_extension.py`): same
structure as the chat-extension version, `self.chat_messages[-10:]` shown. -/
def stack_update_chat_display (msgs : List ChatMsg) : ChatDisplay :=
  if msgs.isEmpty then
    .welcome "👋 Welcome to RoboCopilot! Enter a command above and click 'Execute Task' to begin."
  else
    .messages ((takeLast 10 msgs).map renderStackMsg)

/-! ## `RoboCopilotChat` (`robocopilot_chat.py`) -/

/-- The state of a `RoboCopilotChat` instance.  Object references held by the
host (`_controller`, `_articulation_controller`, `_franka`) are modelled by
their non-nullness; `_cubes` by its length; `_observations` by its keys and
per-entry sub-keys (every value stored there is a dict).  The geometric fields
(`_cube_positions`, `_goal_position`) are host numpy data no claim touches and
are omitted. -/
structure RCState where
  controller : Bool
  articulation_controller : Bool
  execution_log : List String
  current_status : String
  franka : Bool
  cubes : Nat
  world : Option WorldSt
  prompt : String
  observations : List (String × List String)
  obs_logged : Bool
deriving DecidableEq, Repr

/-- `RoboCopilotChat._log_message`: append one `f"[{timestamp}] {message}"`
entry to `self._execution_log` (the `print` to console is outside the state). -/
def log_message (ts msg : String) (s : RCState) : RCState :=
  { s with execution_log := s.execution_log ++ ["[" ++ ts ++ "] " ++ msg] }

/-- `RoboCopilotChat.get_execution_log`: `return self._execution_log.copy()`.
The source returns a fresh copy, so mutation of the returned Python list
cannot alter `self._execution_log`; in this pure model the returned value is
the log's value and the state is untouched. -/
def get_execution_log (s : RCState) : List String :=
  s.execution_log

/-- `RoboCopilotChat.get_current_status`. -/
def get_current_status (s : RCState) : String :=
  s.current_status

/-- `RoboCopilotChat.clear_execution_log`: reset the list to `[]`, then
`self._log_message("Execution log cleared")`. -/
def clear_execution_log (ts : String) (s : RCState) : RCState :=
  log_message ts "Execution log cleared" { s with execution_log := [] }

/-- `RoboCopilotChat.extract_colors_simple` as the one-parameter function the
source defines (note: the `def` takes only `prompt`, no `self`): lowercase,
split on whitespace, keep the words that are colour names, return the first
two (or `None`). -/
def extract_colors_simple (prompt : String) : Option String × Option String :=
  let words := (prompt.toLower.split pyIsSpace).filter (fun w => w ≠ "")
  let colors := ["red", "green", "blue", "yellow", "orange", "purple", "pink",
    "black", "white", "gray", "brown"]
  let found_colors := words.filter (fun w => colors.contains w)
  (found_colors.get? 0, found_colors.get? 1)

/-! ## The physics-step callback (`_on_stacking_physics_step`) -/

deriving instance DecidableEq for Except

/-- Host-call outcomes and interpreter strings for one invocation of
`_on_stacking_physics_step`.  `typeErrorText` is the interpreter's `str(e)`
for the `TypeError` raised by `self.extract_colors_simple(self.prompt)` (the
method is declared with the single parameter `prompt`, so the bound call
receives two arguments); `tbText` is `traceback.format_exc()`.  The remaining
fields model the host calls of the statements after that raise (actions from
`self._controller.forward(...)`, `apply_action`, `is_done`), which are
syntactically present in the source but unreachable. -/
structure StepEnv where
  ts : String
  typeErrorText : String
  tbText : String
  forwardResult : Except PyExn (Option Unit)
  applyRaises : Option PyExn
  isDone : Bool
deriving DecidableEq, Repr

/-- Lines 343-360 of `robocopilot_chat.py`: get actions from the controller,
warn-and-return when `None`, apply them, and on `is_done()` pause the world,
log success and set status "Task completed".  In the source these lines sit
after `self.extract_colors_simple(self.prompt)` (which always raises, see
`stepBody`); even were that call repaired, the preceding subscript
`observations[f"cube_{pick_color}"]` would raise `KeyError`, since the
observation keys are `"cube_0"`, `"cube_1"` (see `update_observations`), not
colour names. -/
def stepTail (env : StepEnv) (s : RCState) : RCState × Option PyExn :=
  match env.forwardResult with
  | .error e => (s, some e)
  | .ok none =>
      (log_message env.ts "Warning: No actions received from controller" s, none)
  | .ok (some _) =>
      match env.applyRaises with
      | some e => (s, some e)
      | none =>
          if env.isDone then
            let s := { s with world := s.world.map pauseWorld }
            let s := log_message env.ts "Stacking task completed successfully!" s
            ({ s with current_status := "Task completed" }, none)
          else (s, none)

/-- The `try` body of `_on_stacking_physics_step`: read `self._observations`
(via `getattr`, default `{}`), warn-and-return when empty, log the observation
keys once (every stored value is a dict, so the inner `isinstance` test is
always true), then call `self.extract_colors_simple(self.prompt)` — which
raises `TypeError`, because the method is defined without a `self` parameter —
followed by the (unreachable) controller statements of `stepTail`. -/
def stepBody (env : StepEnv) (s : RCState) : RCState × Option PyExn :=
  let observations := s.observations
  if observations.isEmpty then
    (log_message env.ts "Warning: No custom observations available" s, none)
  else
    let s :=
      if s.obs_logged then s
      else
        let s := log_message env.ts
          ("Available observation keys: " ++ pyStrListRepr (observations.map Prod.fst)) s
        let s := observations.foldl
          (fun acc kv => log_message env.ts ("  " ++ kv.fst ++ ": " ++ pyStrListRepr kv.snd) acc) s
        { s with obs_logged := true }
    pyBind (s, some { msg := env.typeErrorText, ty := "TypeError" }) (stepTail env)

/-- `RoboCopilotChat._on_stacking_physics_step`: return immediately unless
both `self._controller` and `self._articulation_controller` are set; run the
`try` body; on any exception log the message, the type name and the full
traceback, pause the simulation when `self._world` is set, and record status
"Task failed".  The function always returns normally (the `except` clause
catches every `Exception`). -/
def on_stacking_physics_step (env : StepEnv) (s : RCState) : RCState :=
  if !s.controller || !s.articulation_controller then s
  else
    pyCatch
      (fun s e =>
        let s := log_message env.ts ("Error in stacking physics step: " ++ e.msg) s
        let s := log_message env.ts ("Error type: " ++ e.ty) s
        let s := log_message env.ts ("Full error traceback: " ++ env.tbText) s
        let s := { s with world := s.world.map pauseWorld }
        { s with current_status := "Task failed" })
      (stepBody env s)

/-! ## Task execution (`_on_execute_task_async`) -/

/-- Host-call outcomes for one invocation of `_on_execute_task_async`:
`self._controller.reset()` and `await self._world.play_async()`. -/
structure ExecEnv where
  ts : String
  resetRaises : Option String
  playRaises : Option String
deriving DecidableEq, Repr

/-- `RoboCopilotChat._on_execute_task_async(prompt)`: log, set status
"Executing task...", store the prompt, raise when `self._world` or
`self._controller` is unset (note: `self._articulation_controller` is not
checked), reset the controller, register the `"sim_step"` physics callback and
play; on any exception log it, set status "Task failed" and re-raise (the
second component of the result is the propagated exception). -/
def on_execute_task_async (env : ExecEnv) (prompt : String) (s : RCState) :
    RCState × Option String :=
  let body : RCState × Option String :=
    let s := log_message env.ts ("Executing stacking task: " ++ prompt) s
    let s := { s with current_status := "Executing task..." }
    let s := { s with prompt := prompt }
    match s.world with
    | none => (s, some "World not initialized")
    | some w =>
        if !s.controller then (s, some "Stacking controller not initialized")
        else
          match env.resetRaises with
          | some e => (s, some e)
          | none =>
              let s := log_message env.ts "Controller reset completed" s
              let s := { s with world := some (addCallback "sim_step" w) }
              match env.playRaises with
              | some e => (s, some e)
              | none => ({ s with world := s.world.map playWorld }, none)
  pyCatchReraise
    (fun s e =>
      let s := log_message env.ts ("Error executing stacking task: " ++ e) s
      { s with current_status := "Task failed" })
    body

/-! ## Reset and cleanup (`setup_pre_reset`, `world_cleanup`) -/

/-- `self._world and self._world.physics_callback_exists(name)` followed by
`self._world.remove_physics_callback(name)`; the host removal call may raise
(`raises`). -/
def removeIfExists (name : String) (raises : Option String) (s : RCState) :
    RCState × Option String :=
  match s.world with
  | none => (s, none)
  | some w =>
      if w.callbacks.contains name then
        match raises with
        | some e => (s, some e)
        | none =>
            ({ s with world := some { w with callbacks := w.callbacks.filter (fun c => c ≠ name) } },
             none)
      else (s, none)

/-- Host-call outcomes for `setup_pre_reset`: the two callback removals and
`self._controller.reset()`. -/
structure PreResetEnv where
  ts : String
  removeSimRaises : Option String
  removeObsRaises : Option String
  resetRaises : Option String
deriving DecidableEq, Repr

/-- `RoboCopilotChat.setup_pre_reset`: remove the `"sim_step"` and
`"observations"` callbacks when present, reset the controller object when set
(the `_controller` and `_articulation_controller` references themselves are
not assigned anywhere in this method), log "System reset" and set status
"Reset completed"; on exception log "Error in pre-reset: ...". -/
def setup_pre_reset (env : PreResetEnv) (s : RCState) : RCState :=
  let body : RCState × Option String :=
    pyBind (removeIfExists "sim_step" env.removeSimRaises s) fun s =>
    pyBind (removeIfExists "observations" env.removeObsRaises s) fun s =>
    pyBind (if s.controller then (s, env.resetRaises) else (s, none)) fun s =>
      let s := log_message env.ts "System reset" s
      ({ s with current_status := "Reset completed" }, none)
  pyCatch (fun s e => log_message env.ts ("Error in pre-reset: " ++ e) s) body

/-- Host-call outcomes for `world_cleanup`: the two callback removals. -/
structure CleanupEnv where
  ts : String
  removeSimRaises : Option String
  removeObsRaises : Option String
deriving DecidableEq, Repr

/-- `RoboCopilotChat.world_cleanup`: remove the callbacks when present, null
out `_controller`, `_articulation_controller`, `_franka`, empty `_cubes` and
`_observations`, log "World cleanup completed" and set status "Cleaned up";
on exception log "Error in cleanup: ..." (nothing is re-raised). -/
def world_cleanup (env : CleanupEnv) (s : RCState) : RCState :=
  let body : RCState × Option String :=
    pyBind (removeIfExists "sim_step" env.removeSimRaises s) fun s =>
    pyBind (removeIfExists "observations" env.removeObsRaises s) fun s =>
      let s := { s with controller := false, articulation_controller := false,
                        franka := false, cubes := 0, observations := [] }
      let s := log_message env.ts "World cleanup completed" s
      ({ s with current_status := "Cleaned up" }, none)
  pyCatch (fun s e => log_message env.ts ("Error in cleanup: " ++ e) s) body

/-! ## Observations (`_update_observations`) -/

/-- The observation dict built by `_update_observations` on its success path,
reduced to keys and per-entry sub-keys: one entry under the robot's name and
one `"cube_i"` entry per cube. -/
def builtObservations (frankaName : String) (numCubes : Nat) :
    List (String × List String) :=
  (frankaName, ["joint_positions", "joint_velocities", "end_effector_position",
    "end_effector_orientation"]) ::
  (List.range numCubes).map
    (fun i => ("cube_" ++ toString i, ["position", "orientation", "linear_velocity"]))

/-- Host data for one invocation of `_update_observations`: the robot's host
name and whether any of the host getters (joint state, poses, velocities)
raised. -/
structure ObsEnv where
  ts : String
  frankaName : String
  raises : Option String
deriving DecidableEq, Repr

/-- `RoboCopilotChat._update_observations`: return unchanged when
`self._franka` or `self._cubes` is unset/empty; on a host-getter exception log
"Error updating observations: ..."; otherwise store the rebuilt observation
dict. -/
def update_observations (env : ObsEnv) (s : RCState) : RCState :=
  if !s.franka || s.cubes = 0 then s
  else
    match env.raises with
    | some e => log_message env.ts ("Error updating observations: " ++ e) s
    | none => { s with observations := builtObservations env.frankaName s.cubes }

/-! ## The operations of `RoboCopilotChat` as an operation language -/

/-- Every state-touching operation of `RoboCopilotChat` embedded in this file
(scene construction, `setup_scene`/`setup_post_load`, is host-API wiring that
only ever appends to the log through the same `_log_message` helper and is out
of the claims' scope). -/
inductive RCOp where
  | logMsg (ts msg : String)
  | physicsStep (env : StepEnv)
  | executeTask (env : ExecEnv) (prompt : String)
  | preReset (env : PreResetEnv)
  | cleanup (env : CleanupEnv)
  | updateObs (env : ObsEnv)
  | getLog
  | getStatus
  | clearLog (ts : String)
deriving DecidableEq, Repr

/-- State effect of each `RoboCopilotChat` operation (the getters return
values and leave the state untouched). -/
def applyRCOp : RCOp → RCState → RCState
  | .logMsg ts m, s => log_message ts m s
  | .physicsStep env, s => on_stacking_physics_step env s
  | .executeTask env p, s => (on_execute_task_async env p s).1
  | .preReset env, s => setup_pre_reset env s
  | .cleanup env, s => world_cleanup env s
  | .updateObs env, s => update_observations env s
  | .getLog, s => s
  | .getStatus, s => s
  | .clearLog ts, s => clear_execution_log ts s

/-- Whether an operation is `clear_execution_log`. -/
def isClearOp : RCOp → Bool
  | .clearLog _ => true
  | _ => false

/-! ## `UIBuilder` (`ui_builder.py`) -/

/-- A coroutine handed to `asyncio.ensure_future` by a UI handler. -/
inductive ScheduledTask where
  | executeTask (prompt : String)
  | groqResponse (userMessage : String)
  | preResetTask
deriving DecidableEq, Repr

/-- The state of a `UIBuilder` instance: the chat list, the stored prompt, the
flag pair the source scatters (`_post_load_in_progress`,
`_scene_setup_successful`), the text/enabled fields of the labels and buttons
the handlers assign, the `robocopilot_sample` and `world` references, and the
list of coroutines scheduled via `asyncio.ensure_future`.  The
`prompt_input` widget's current string is passed to handlers as an argument. -/
structure UIState where
  chat_messages : List ChatMsg
  current_prompt : String
  status_label_text : String
  scene_status_text : String
  execute_enabled : Bool
  reset_enabled : Bool
  post_load_in_progress : Bool
  scene_setup_successful : Bool
  sample : Option RCState
  world : Option WorldSt
  scheduled : List ScheduledTask
deriving DecidableEq, Repr

/-- `UIBuilder._add_chat_message`: append the message dict and rebuild the
display (the rebuild does not touch the list, see `update_chat_display`). -/
def ui_add_chat_message (sender text ts : String) (s : UIState) : UIState :=
  { s with chat_messages := add_chat_message sender text ts s.chat_messages }

/-- `UIBuilder._on_execute_task`: read and strip the prompt-input string,
substitute "Stack the cubes" when empty, bail out with a chat message when the
sample or the world is missing, otherwise store the prompt, post the two chat
messages, set the status label to "Executing Task...", disable the execute
button and schedule `_execute_task_async(prompt)`. -/
def on_execute_task (inputValue ts : String) (s : UIState) : UIState :=
  let prompt := pyStrip inputValue
  let prompt := if prompt = "" then "Stack the cubes" else prompt
  if s.sample.isNone then
    ui_add_chat_message "RoboCopilot" "Please load the scene first!" ts s
  else if s.world.isNone then
    ui_add_chat_message "RoboCopilot" "World not initialized. Please load the world first!" ts s
  else
    let s := { s with current_prompt := prompt }
    let s := ui_add_chat_message "User" prompt ts s
    let s := ui_add_chat_message "RoboCopilot" ("Executing task: " ++ prompt) ts s
    let s := { s with status_label_text := "Executing Task...", execute_enabled := false }
    { s with scheduled := s.scheduled ++ [ScheduledTask.executeTask prompt] }

/-- `UIBuilder._pre_reset`: when the sample exists, schedule its
`setup_pre_reset` coroutine (exceptions while scheduling are host-side and
out of the model's scope; the body itself cannot raise). -/
def ui_pre_reset (s : UIState) : UIState :=
  if s.sample.isSome then
    { s with scheduled := s.scheduled ++ [ScheduledTask.preResetTask] }
  else s

/-- Host-call outcomes for `UIBuilder._on_clear_scene`: `self.world.stop()`,
`self.world.clear()`, `create_new_stage()`, and the cleanup environment for
the nested `world_cleanup` call (whose own exceptions are swallowed inside
`world_cleanup` and never reach this handler). -/
structure ClearEnv where
  ts : String
  stopRaises : Option String
  clearRaises : Option String
  stageRaises : Option String
  cleanupEnv : CleanupEnv
deriving DecidableEq, Repr

/-- Lines 421-424 of `ui_builder.py`: stop the simulation when the world
exists and is playing, then post "Stopping simulation...". -/
def clearPhaseStop (env : ClearEnv) (s : UIState) : UIState × Option String :=
  match s.world with
  | none => (s, none)
  | some w =>
      if w.playing then
        match env.stopRaises with
        | some e => (s, some e)
        | none =>
            let s := { s with world := some (stopWorld w) }
            (ui_add_chat_message "RoboCopilot" "Stopping simulation..." env.ts s, none)
      else (s, none)

/-- Lines 426-430 of `ui_builder.py`: run the sample's `world_cleanup`
(which never raises) and post "Cleaning up RoboCopilot sample...". -/
def clearPhaseCleanup (env : ClearEnv) (s : UIState) : UIState × Option String :=
  match s.sample with
  | none => (s, none)
  | some rc =>
      let s := { s with sample := some (world_cleanup env.cleanupEnv rc) }
      (ui_add_chat_message "RoboCopilot" "Cleaning up RoboCopilot sample..." env.ts s, none)

/-- Lines 432-441 of `ui_builder.py`: remove the `"sim_step"` callback when
registered, clear the world, drop the reference and post "Clearing world...". -/
def clearPhaseWorld (env : ClearEnv) (s : UIState) : UIState × Option String :=
  match s.world with
  | none => (s, none)
  | some w =>
      let w := if w.callbacks.contains "sim_step" then
          { w with callbacks := w.callbacks.filter (fun c => c ≠ "sim_step") }
        else w
      match env.clearRaises with
      | some e => ({ s with world := some w }, some e)
      | none =>
          let s := { s with world := none }
          (ui_add_chat_message "RoboCopilot" "Clearing world..." env.ts s, none)

/-- Lines 443-446 of `ui_builder.py`: `create_new_stage()` and post
"Creating new empty stage...". -/
def clearPhaseStage (env : ClearEnv) (s : UIState) : UIState × Option String :=
  match env.stageRaises with
  | some e => (s, some e)
  | none => (ui_add_chat_message "RoboCopilot" "Creating new empty stage..." env.ts s, none)

/-- `UIBuilder._on_clear_scene`: reset the in-progress flag, run the four
host phases above inside the `try`, then update the scene-status label,
disable the reset and execute buttons, set the status label to "Ready" and
post the final chat message; on any exception post "Error clearing scene: ..."
(the label assignments after the failed statement do not run). -/
def on_clear_scene (env : ClearEnv) (s : UIState) : UIState :=
  let s := { s with post_load_in_progress := false }
  let body :=
    pyBind (clearPhaseStop env s) fun s =>
    pyBind (clearPhaseCleanup env s) fun s =>
    pyBind (clearPhaseWorld env s) fun s =>
    pyBind (clearPhaseStage env s) fun s =>
      let s := { s with scene_status_text := "Scene cleared" }
      let s := { s with reset_enabled := false, execute_enabled := false }
      let s := { s with status_label_text := "Ready" }
      (ui_add_chat_message "RoboCopilot"
        "Scene cleared successfully. Ready to load a new scene." env.ts s, none)
  pyCatch
    (fun s e => ui_add_chat_message "RoboCopilot" ("Error clearing scene: " ++ e) env.ts s)
    body

/-! ## `RoboCopilotUI` (`robocopilot_extension.py`) -/

/-- The state of a `RoboCopilotUI` instance.  Its `self.sample` is a
`RoboCopilotStack` object whose class is not part of the provided sources;
the calls the handlers make into it (`_on_execute_task_async`,
`add_log_entry`) are recorded in `scheduled_prompts` / `log_requests` without
modelling that missing class. -/
structure StackState where
  chat_messages : List ChatMsg
  current_prompt : String
  status_label_text : String
  execute_enabled : Bool
  scheduled_prompts : List String
  log_requests : List String
deriving DecidableEq, Repr

/-- `RoboCopilotUI._add_chat_message` (same body as the chat extension). -/
def stack_add_chat_message (sender text ts : String) (t : StackState) : StackState :=
  { t with chat_messages := add_chat_message sender text ts t.chat_messages }

/-- `RoboCopilotUI._on_execute_task_event`: strip the prompt-input string,
substitute "Stack the cubes" when empty, store it, post the two chat
messages, set the status label to "Executing Task...", disable the execute
button, schedule `sample._on_execute_task_async(prompt)` and request
`sample.add_log_entry(f"User command: {prompt}")`. -/
def on_execute_task_event (inputValue ts : String) (t : StackState) : StackState :=
  let prompt := pyStrip inputValue
  let prompt := if prompt = "" then "Stack the cubes" else prompt
  let t := { t with current_prompt := prompt }
  let t := stack_add_chat_message "User" prompt ts t
  let t := stack_add_chat_message "RoboCopilot" ("🚀 Executing task: " ++ prompt) ts t
  let t := { t with status_label_text := "Executing Task...", execute_enabled := false }
  let t := { t with scheduled_prompts := t.scheduled_prompts ++ [prompt] }
  { t with log_requests := t.log_requests ++ ["User command: " ++ prompt] }

/-- `RoboCopilotUI.post_reset_button_event`: enable the execute button, set
the status label to "Ready" and post the reset message. -/
def post_reset_button_event (ts : String) (t : StackState) : StackState :=
  let t := { t with execute_enabled := true }
  let t := { t with status_label_text := "Ready" }
  stack_add_chat_message "RoboCopilot" "🔄 System reset complete. Ready for new tasks!" ts t

/-- `RoboCopilotUI.post_clear_button_event`: disable the execute button, set
the status label to "Scene Cleared" and post the cleared message. -/
def post_clear_button_event (ts : String) (t : StackState) : StackState :=
  let t := { t with execute_enabled := false }
  let t := { t with status_label_text := "Scene Cleared" }
  stack_add_chat_message "RoboCopilot" "🧹 Scene cleared. Please load a scene to continue." ts t

/-! ## Concrete fixtures used by witnesses and counterexamples -/

/-- A freshly created world: not playing, no callbacks. -/
def world0 : WorldSt := { playing := false, paused := false, callbacks := [] }

/-- A world mid-execution: playing, both callbacks registered. -/
def worldRun : WorldSt := { playing := true, paused := false, callbacks := ["observations", "sim_step"] }

/-- `RoboCopilotChat.__init__`: all references null, empty log, status
"Ready". -/
def rc0 : RCState :=
  { controller := false, articulation_controller := false, execution_log := [],
    current_status := "Ready", franka := false, cubes := 0, world := none,
    prompt := "", observations := [], obs_logged := false }

/-- A state after `setup_post_load` failed between assigning `_controller`
and obtaining the articulation controller: the controller reference is set,
the articulation handle is still null. -/
def rcNoArtic : RCState :=
  { rc0 with controller := true, franka := true, cubes := 2, world := some world0 }

/-- A fully set-up state in mid-execution. -/
def rcReady : RCState :=
  { rc0 with
    controller := true
    articulation_controller := true
    franka := true
    cubes := 2
    world := some worldRun
    current_status := "Executing task..."
    prompt := "stack the red cube on the green cube"
    observations := builtObservations "franka" 2
    obs_logged := true }

/-- A step environment in which every host call succeeds and the controller
reports done. -/
def stepEnvDone : StepEnv :=
  { ts := "10:00:00",
    typeErrorText := "extract_colors_simple() takes 1 positional argument but 2 were given",
    tbText := "Traceback (most recent call last): TypeError: extract_colors_simple() takes 1 positional argument but 2 were given",
    forwardResult := Except.ok (some ()), applyRaises := none, isDone := true }

/-- An execute environment in which every host call succeeds. -/
def execEnv0 : ExecEnv := { ts := "10:00:01", resetRaises := none, playRaises := none }

/-- A pre-reset environment in which every host call succeeds. -/
def preResetEnv0 : PreResetEnv :=
  { ts := "10:00:02", removeSimRaises := none, removeObsRaises := none, resetRaises := none }

/-- A cleanup environment in which every host call succeeds. -/
def cleanupEnv0 : CleanupEnv :=
  { ts := "10:00:03", removeSimRaises := none, removeObsRaises := none }

/-- A clear-scene environment in which every host call succeeds. -/
def clearEnv0 : ClearEnv :=
  { ts := "10:00:04", stopRaises := none, clearRaises := none, stageRaises := none,
    cleanupEnv := cleanupEnv0 }

/-- A `UIBuilder` state with a loaded scene, ready to execute. -/
def uiReady : UIState :=
  { chat_messages := [], current_prompt := "", status_label_text := "Ready",
    scene_status_text := "Scene loaded successfully", execute_enabled := true,
    reset_enabled := true, post_load_in_progress := false,
    scene_setup_successful := true, sample := some rcReady, world := some worldRun,
    scheduled := [] }

/-- A `RoboCopilotUI` state with the execute button enabled. -/
def stackReady : StackState :=
  { chat_messages := [], current_prompt := "", status_label_text := "Ready",
    execute_enabled := true, scheduled_prompts := [], log_requests := [] }

/-! ## Helper lemmas about `setLastText` -/

theorem setLastText_length (t : String) (l : List ChatMsg) :
    (setLastText t l).length = l.length := by
  induction l with
  | nil => rfl
  | cons a l ih =>
    cases l with
    | nil => rfl
    | cons b l' => simpa [setLastText] using ih

theorem setLastText_getElem?_lt (t : String) (l : List ChatMsg) (i : Nat)
    (h : i + 1 < l.length) : (setLastText t l)[i]? = l[i]? := by
  induction l generalizing i with
  | nil => simp at h
  | cons a l ih =>
    cases l with
    | nil => simp at h
    | cons b l' =>
      cases i with
      | zero => simp [setLastText]
      | succ j =>
        have hj : j + 1 < (b :: l').length := by
          simp at h ⊢
          omega
        have := ih j hj
        simpa [setLastText] using this

theorem setLastText_getElem?_fields (t : String) (l : List ChatMsg) (i : Nat)
    (m : ChatMsg) (h : l[i]? = some m) :
    ∃ m', (setLastText t l)[i]? = some m' ∧
      m'.sender = m.sender ∧ m'.timestamp = m.timestamp := by
  induction l generalizing i with
  | nil => simp at h
  | cons a l ih =>
    cases l with
    | nil =>
      cases i with
      | zero =>
        simp at h
        exact ⟨{ m with text := t }, by simp [setLastText, ← h]⟩
      | succ j => simp at h
    | cons b l' =>
      cases i with
      | zero =>
        simp at h
        exact ⟨a, by simp [setLastText, ← h]⟩
      | succ j =>
        have h' : (b :: l')[j]? = some m := by simpa using h
        obtain ⟨m', hm', hs, ht⟩ := ih j h'
        exact ⟨m', by simpa [setLastText] using ⟨hm', hs, ht⟩⟩

/-! ## Claim C1: chat-message immutability -/

/-- C1 counterexample: chat messages are NOT immutable once appended.  After
`_get_groq_response` appends its initial empty assistant message, the first
streamed chunk overwrites that appended entry's text (the source statement
`self.chat_messages[-1]["text"] = full_response`): the entry at index 0 has
text `""` right after the append and text `"Hi"` after the chunk. -/
theorem c1_text_mutated_counterexample :
    (applyChatOp (ChatOp.add "RoboCopilot" "" "10:05") [])[0]? =
      some { sender := "RoboCopilot", text := "", timestamp := "10:05" } ∧
    (applyChatOp (ChatOp.streamChunk "Hi")
      (applyChatOp (ChatOp.add "RoboCopilot" "" "10:05") []))[0]? =
      some { sender := "RoboCopilot", text := "Hi", timestamp := "10:05" } ∧
    get_groq_response "10:05" [some "Hi"] [] =
      [{ sender := "RoboCopilot", text := "Hi", timestamp := "10:05" }] := by
  exact ⟨rfl, rfl, rfl⟩

/-- C1 amended: no operation ever mutates a chat message's sender tag or
timestamp, and none mutates the text of any entry other than the most recent
one — the streaming response handler of `_get_groq_response` may overwrite
the text of the most recently appended entry.  The one operation that removes
entries is the Clear Chat action, whose `self.chat_messages = []` discards
every entry wholesale (it never edits a surviving entry); every other
operation keeps all existing entries. -/
theorem c1_sender_timestamp_immutable (op : ChatOp) (msgs : List ChatMsg)
    (i : Nat) (m : ChatMsg) (hm : msgs[i]? = some m)
    (hop : op ≠ ChatOp.clearChat) :
    (i + 1 < msgs.length → (applyChatOp op msgs)[i]? = some m) ∧
    (∃ m', (applyChatOp op msgs)[i]? = some m' ∧
      m'.sender = m.sender ∧ m'.timestamp = m.timestamp) ∧
    msgs.length ≤ (applyChatOp op msgs).length ∧
    applyChatOp ChatOp.clearChat msgs = [] := by
  have hi : i < msgs.length := by
    by_contra hlt
    rw [List.getElem?_eq_none (by omega)] at hm
    exact Option.noConfusion hm
  cases op with
  | add sender text ts =>
    refine ⟨fun _ => ?_, ⟨m, ?_, rfl, rfl⟩, ?_, rfl⟩
    · rw [applyChatOp, add_chat_message, List.getElem?_append_left hi, hm]
    · rw [applyChatOp, add_chat_message, List.getElem?_append_left hi, hm]
    · simp [applyChatOp, add_chat_message]
  | display =>
    exact ⟨fun _ => hm, ⟨m, hm, rfl, rfl⟩, Nat.le_refl _, rfl⟩
  | streamChunk fullResponse =>
    refine ⟨fun h => ?_, ?_, ?_, rfl⟩
    · rw [applyChatOp, setLastText_getElem?_lt _ _ _ h, hm]
    · exact setLastText_getElem?_fields fullResponse msgs i m hm
    · simp [applyChatOp, setLastText_length]
  | clearChat => exact absurd rfl hop

/-- C1 witness: the amended immutability theorem applied to a two-message
list under a streaming-chunk operation. -/
theorem c1_witness :
    (0 + 1 < ([{ sender := "User", text := "hello", timestamp := "10:04" },
               { sender := "RoboCopilot", text := "", timestamp := "10:05" }] :
        List ChatMsg).length →
      (applyChatOp (ChatOp.streamChunk "Hi")
        [{ sender := "User", text := "hello", timestamp := "10:04" },
         { sender := "RoboCopilot", text := "", timestamp := "10:05" }])[0]? =
        some { sender := "User", text := "hello", timestamp := "10:04" }) ∧
    (∃ m', (applyChatOp (ChatOp.streamChunk "Hi")
        [{ sender := "User", text := "hello", timestamp := "10:04" },
         { sender := "RoboCopilot", text := "", timestamp := "10:05" }])[0]? = some m' ∧
      m'.sender = "User" ∧ m'.timestamp = "10:04") ∧
    ([{ sender := "User", text := "hello", timestamp := "10:04" },
      { sender := "RoboCopilot", text := "", timestamp := "10:05" }] :
        List ChatMsg).length ≤
      (applyChatOp (ChatOp.streamChunk "Hi")
        [{ sender := "User", text := "hello", timestamp := "10:04" },
         { sender := "RoboCopilot", text := "", timestamp := "10:05" }]).length ∧
    applyChatOp ChatOp.clearChat
      [{ sender := "User", text := "hello", timestamp := "10:04" },
       { sender := "RoboCopilot", text := "", timestamp := "10:05" }] = [] :=
  c1_sender_timestamp_immutable (ChatOp.streamChunk "Hi")
    [{ sender := "User", text := "hello", timestamp := "10:04" },
     { sender := "RoboCopilot", text := "", timestamp := "10:05" }] 0
    { sender := "User", text := "hello", timestamp := "10:04" } rfl (by decide)

/-! ## Claim C2: guard on entering execution -/

/-- C2 counterexample: with a non-null controller but a NULL articulation
handle (reachable when `setup_post_load` fails after assigning
`self._controller`), `_on_execute_task_async` does not fail: it returns
normally and the session status is "Executing task..." — the method checks
only `self._world` and `self._controller`, never
`self._articulation_controller`. -/
theorem c2_null_articulation_counterexample :
    rcNoArtic.controller = true ∧
    rcNoArtic.articulation_controller = false ∧
    (on_execute_task_async execEnv0 "Stack the cubes" rcNoArtic).2 = none ∧
    (on_execute_task_async execEnv0 "Stack the cubes" rcNoArtic).1.current_status =
      "Executing task..." :=
  ⟨rfl, rfl, rfl, rfl⟩

/-- C2 amended: the execute operation fails (re-raises, recording status
"Task failed") when the world or the controller reference is null, but it
does not check the articulation handle: with a null articulation handle the
session still enters "Executing task...", and the per-step callback then
merely returns without acting. -/
theorem c2_execute_guards_amended (env : ExecEnv) (p : String) (s : RCState) :
    (s.world = none ∨ s.controller = false →
      (on_execute_task_async env p s).2.isSome = true ∧
      (on_execute_task_async env p s).1.current_status = "Task failed") ∧
    (∀ env2 : StepEnv, s.articulation_controller = false →
      on_stacking_physics_step env2 s = s) := by
  constructor
  · intro h
    rcases h with h | h
    · simp [on_execute_task_async, pyCatchReraise, log_message, h]
    · rcases hw : s.world with _ | w
      · simp [on_execute_task_async, pyCatchReraise, log_message, hw]
      · simp [on_execute_task_async, pyCatchReraise, log_message, hw, h]
  · intro env2 h
    simp [on_stacking_physics_step, h]

/-- C2 witness: the amended theorem applied at a state with a null controller
(the call fails) and at a state with a null articulation handle (the step
callback is a no-op). -/
theorem c2_witness :
    ((on_execute_task_async execEnv0 "Stack the cubes" rc0).2.isSome = true ∧
     (on_execute_task_async execEnv0 "Stack the cubes" rc0).1.current_status =
       "Task failed") ∧
    on_stacking_physics_step stepEnvDone rcNoArtic = rcNoArtic :=
  ⟨(c2_execute_guards_amended execEnv0 "Stack the cubes" rc0).1 (Or.inl rfl),
   (c2_execute_guards_amended execEnv0 "Stack the cubes" rcNoArtic).2 stepEnvDone rfl⟩

/-! ## Claim C3: exceptions in the per-step callback are contained -/

/-- C3: whenever the `try` body of `_on_stacking_physics_step` raises, the
callback catches the exception and returns normally (the function is total
into `RCState`, nothing propagates): it appends the error message, the error
type and the full stack trace to the execution log, pauses the simulation
when the world reference is non-null (`Option.map pauseWorld`), and records
status "Task failed". -/
theorem c3_step_exception_handled (env : StepEnv) (s s' : RCState) (e : PyExn)
    (hc : s.controller = true) (ha : s.articulation_controller = true)
    (hbody : stepBody env s = (s', some e)) :
    on_stacking_physics_step env s =
      { s' with
        execution_log := s'.execution_log ++
          ["[" ++ env.ts ++ "] " ++ ("Error in stacking physics step: " ++ e.msg),
           "[" ++ env.ts ++ "] " ++ ("Error type: " ++ e.ty),
           "[" ++ env.ts ++ "] " ++ ("Full error traceback: " ++ env.tbText)],
        world := s'.world.map pauseWorld,
        current_status := "Task failed" } := by
  unfold on_stacking_physics_step
  rw [hc, ha, hbody]
  simp [pyCatch, log_message]

/-- The `TypeError` raised by the bound-method call
`self.extract_colors_simple(self.prompt)` in the fixture environment. -/
def typeErrorExn : PyExn := { msg := stepEnvDone.typeErrorText, ty := "TypeError" }

/-- C3 witness: the exception-containment theorem applied to a concrete
mid-execution state, in which the body raises the `TypeError` described in
`stepBody`. -/
theorem c3_witness :
    rcReady.controller = true ∧
    rcReady.articulation_controller = true ∧
    stepBody stepEnvDone rcReady = (rcReady, some typeErrorExn) ∧
    on_stacking_physics_step stepEnvDone rcReady =
      { rcReady with
        execution_log := rcReady.execution_log ++
          ["[" ++ stepEnvDone.ts ++ "] " ++
            ("Error in stacking physics step: " ++ typeErrorExn.msg),
           "[" ++ stepEnvDone.ts ++ "] " ++ ("Error type: " ++ typeErrorExn.ty),
           "[" ++ stepEnvDone.ts ++ "] " ++
            ("Full error traceback: " ++ stepEnvDone.tbText)],
        world := rcReady.world.map pauseWorld,
        current_status := "Task failed" } :=
  ⟨rfl, rfl, rfl,
   c3_step_exception_handled stepEnvDone rcReady rcReady typeErrorExn rfl rfl rfl⟩

/-! ## Claim C5: the Completed transition -/

/-- C5 (code bug): even when every host call succeeds and the controller
reports done (`isDone = true`), the per-step callback ends with status
"Task failed" and never "Task completed": the statement
`self.extract_colors_simple(self.prompt)` raises `TypeError` (the method is
defined without a `self` parameter) before `is_done()` is ever consulted, so
the `Executing → Completed` transition of lines 356-360 is unreachable.  The
world IS paused here — but by the `except` branch, not by the done branch. -/
theorem c5_done_transition_unreachable :
    stepEnvDone.isDone = true ∧
    (on_stacking_physics_step stepEnvDone rcReady).current_status = "Task failed" ∧
    (on_stacking_physics_step stepEnvDone rcReady).current_status ≠ "Task completed" ∧
    (on_stacking_physics_step stepEnvDone rcReady).world = some (pauseWorld worldRun) ∧
    (on_stacking_physics_step stepEnvDone rcReady).execution_log.length =
      rcReady.execution_log.length + 3 := by
  refine ⟨rfl, rfl, ?_, rfl, rfl⟩
  intro h
  exact absurd (rfl.trans h).symm (by decide)

/-! ## Claim C4: empty instruction falls back to the default -/

/-- C4: when the prompt-input string strips to empty, both execute handlers
behave exactly as if the default instruction "Stack the cubes" had been
entered: the handler substitutes the default and proceeds identically
(including, in the chat extension, storing the prompt, posting the chat
messages and scheduling `_execute_task_async` with the default string). -/
theorem c4_empty_prompt_uses_default (inputValue ts : String) (s : UIState)
    (t : StackState) (h : pyStrip inputValue = "") :
    on_execute_task inputValue ts s = on_execute_task "Stack the cubes" ts s ∧
    on_execute_task_event inputValue ts t =
      on_execute_task_event "Stack the cubes" ts t ∧
    (s.sample.isSome = true → s.world.isSome = true →
      (on_execute_task inputValue ts s).scheduled =
        s.scheduled ++ [ScheduledTask.executeTask "Stack the cubes"]) := by
  have hd : pyStrip "Stack the cubes" = "Stack the cubes" := by decide
  refine ⟨?_, ?_, ?_⟩
  · simp [on_execute_task, h, hd]
  · simp [on_execute_task_event, h, hd]
  · intro h1 h2
    rcases hs : s.sample with _ | rc
    · rw [hs] at h1
      exact absurd h1 (by decide)
    · rcases hw : s.world with _ | w
      · rw [hw] at h2
        exact absurd h2 (by decide)
      · simp [on_execute_task, h, hs, hw, ui_add_chat_message]

/-- C4 witness: the fallback theorem applied to the whitespace-only input
string "   " at concrete ready states of both extensions. -/
theorem c4_witness :
    on_execute_task "   " "10:08" uiReady =
      on_execute_task "Stack the cubes" "10:08" uiReady ∧
    on_execute_task_event "   " "10:08" stackReady =
      on_execute_task_event "Stack the cubes" "10:08" stackReady ∧
    (uiReady.sample.isSome = true → uiReady.world.isSome = true →
      (on_execute_task "   " "10:08" uiReady).scheduled =
        uiReady.scheduled ++ [ScheduledTask.executeTask "Stack the cubes"]) :=
  c4_empty_prompt_uses_default "   " "10:08" uiReady stackReady (by decide)

/-! ## Claim C10: clearing the execution log leaves one entry -/

/-- C10: immediately after `clear_execution_log`, the log read back by
`get_execution_log` is exactly the single timestamped
"Execution log cleared" entry appended by the clear operation itself. -/
theorem c10_clear_log_single_entry (ts : String) (s : RCState) :
    get_execution_log (clear_execution_log ts s) =
      ["[" ++ ts ++ "] " ++ "Execution log cleared"] ∧
    (get_execution_log (clear_execution_log ts s)).length = 1 := by
  exact ⟨rfl, rfl⟩


/-! ## Claim C6: the execution log is append-only -/

theorem log_prefix_log_message (ts m : String) (s : RCState) :
    s.execution_log <+: (log_message ts m s).execution_log :=
  ⟨["[" ++ ts ++ "] " ++ m], rfl⟩

theorem log_prefix_pyBind {ε : Type} (s : RCState) (r : RCState × Option ε)
    (f : RCState → RCState × Option ε)
    (h : s.execution_log <+: r.1.execution_log)
    (hf : ∀ u, u.execution_log <+: (f u).1.execution_log) :
    s.execution_log <+: (pyBind r f).1.execution_log := by
  rcases r with ⟨u, e⟩
  cases e with
  | none => exact h.trans (hf u)
  | some e => exact h

theorem log_prefix_pyCatch {ε : Type} (s : RCState) (handler : RCState → ε → RCState)
    (r : RCState × Option ε)
    (h : s.execution_log <+: r.1.execution_log)
    (hh : ∀ u e, u.execution_log <+: (handler u e).execution_log) :
    s.execution_log <+: (pyCatch handler r).execution_log := by
  rcases r with ⟨u, e⟩
  cases e with
  | none => exact h
  | some e => exact h.trans (hh u e)

theorem log_prefix_pyCatchReraise {ε : Type} (s : RCState)
    (handler : RCState → ε → RCState) (r : RCState × Option ε)
    (h : s.execution_log <+: r.1.execution_log)
    (hh : ∀ u e, u.execution_log <+: (handler u e).execution_log) :
    s.execution_log <+: (pyCatchReraise handler r).1.execution_log := by
  rcases r with ⟨u, e⟩
  cases e with
  | none => exact h
  | some e => exact h.trans (hh u e)

theorem removeIfExists_log (n : String) (r : Option String) (s : RCState) :
    (removeIfExists n r s).1.execution_log = s.execution_log := by
  unfold removeIfExists
  rcases hw : s.world with _ | w
  · rfl
  · dsimp only
    split
    · rcases r with _ | e <;> rfl
    · rfl

theorem log_prefix_obs_foldl (ts : String) (l : List (String × List String))
    (s : RCState) :
    s.execution_log <+:
      (l.foldl (fun acc kv =>
        log_message ts ("  " ++ kv.fst ++ ": " ++ pyStrListRepr kv.snd) acc) s).execution_log := by
  induction l generalizing s with
  | nil => exact List.prefix_refl _
  | cons a l ih =>
    rw [List.foldl_cons]
    exact (log_prefix_log_message _ _ s).trans (ih _)

theorem log_prefix_stepBody (env : StepEnv) (s : RCState) :
    s.execution_log <+: (stepBody env s).1.execution_log := by
  by_cases he : s.observations.isEmpty = true
  · simp only [stepBody, he, if_true]
    exact log_prefix_log_message _ _ _
  · by_cases ho : s.obs_logged = true
    · simp only [stepBody, he, ho, if_true, if_false, pyBind]
      exact List.prefix_refl _
    · simp only [stepBody, he, ho, if_true, if_false, pyBind]
      exact (log_prefix_log_message _ _ _).trans (log_prefix_obs_foldl _ _ _)

theorem log_prefix_physics (env : StepEnv) (s : RCState) :
    s.execution_log <+: (on_stacking_physics_step env s).execution_log := by
  unfold on_stacking_physics_step
  split
  · exact List.prefix_refl _
  · refine log_prefix_pyCatch s _ _ ?_ ?_
    · exact log_prefix_stepBody env s
    · intro u e
      simp [log_message]

theorem log_prefix_execute (env : ExecEnv) (p : String) (s : RCState) :
    s.execution_log <+: (on_execute_task_async env p s).1.execution_log := by
  unfold on_execute_task_async
  refine log_prefix_pyCatchReraise s _ _ ?_ ?_
  · rcases hw : s.world with _ | w <;>
      cases hc : s.controller <;>
      rcases hr : env.resetRaises with _ | e1 <;>
      rcases hp : env.playRaises with _ | e2 <;>
        simp [log_message, hw, hc, hr, hp]
  · intro u e
    simp [log_message]

theorem log_prefix_preReset (env : PreResetEnv) (s : RCState) :
    s.execution_log <+: (setup_pre_reset env s).execution_log := by
  unfold setup_pre_reset
  refine log_prefix_pyCatch s _ _ ?_ ?_
  · refine log_prefix_pyBind s _ _ (by rw [removeIfExists_log]) ?_
    intro u1
    refine log_prefix_pyBind u1 _ _ (by rw [removeIfExists_log]) ?_
    intro u2
    refine log_prefix_pyBind u2 _ _ ?_ ?_
    · cases u2.controller <;> simp
    · intro u3
      simp only [log_message, List.append_assoc]
      exact List.prefix_append _ _
  · intro u e
    exact log_prefix_log_message _ _ _

theorem log_prefix_cleanup (env : CleanupEnv) (s : RCState) :
    s.execution_log <+: (world_cleanup env s).execution_log := by
  unfold world_cleanup
  refine log_prefix_pyCatch s _ _ ?_ ?_
  · refine log_prefix_pyBind s _ _ (by rw [removeIfExists_log]) ?_
    intro u1
    refine log_prefix_pyBind u1 _ _ (by rw [removeIfExists_log]) ?_
    intro u2
    simp only [log_message, List.append_assoc]
    exact List.prefix_append _ _
  · intro u e
    exact log_prefix_log_message _ _ _

theorem log_prefix_updateObs (env : ObsEnv) (s : RCState) :
    s.execution_log <+: (update_observations env s).execution_log := by
  unfold update_observations
  split
  · exact List.prefix_refl _
  · rcases env.raises with _ | e
    · exact List.prefix_refl _
    · exact log_prefix_log_message _ _ _

/-- C6: the execution log is append-only.  For every embedded operation of
`RoboCopilotChat` other than `clear_execution_log`, the prior log is a prefix
of the resulting log (no entry is removed or reordered, entries are only
appended); `get_execution_log` returns the log's value (a `.copy()` in the
source, so mutating the returned Python list cannot touch the internal one)
and leaves the state untouched; and `_log_message` appends exactly one
timestamped entry. -/
theorem c6_log_append_only (op : RCOp) (s : RCState) (h : isClearOp op = false) :
    s.execution_log <+: (applyRCOp op s).execution_log ∧
    get_execution_log s = s.execution_log ∧
    applyRCOp RCOp.getLog s = s ∧
    (∀ ts m, (log_message ts m s).execution_log =
      s.execution_log ++ ["[" ++ ts ++ "] " ++ m]) := by
  refine ⟨?_, rfl, rfl, fun ts m => rfl⟩
  cases op with
  | logMsg ts m => exact log_prefix_log_message ts m s
  | physicsStep env => exact log_prefix_physics env s
  | executeTask env p => exact log_prefix_execute env p s
  | preReset env => exact log_prefix_preReset env s
  | cleanup env => exact log_prefix_cleanup env s
  | updateObs env => exact log_prefix_updateObs env s
  | getLog => exact List.prefix_refl _
  | getStatus => exact List.prefix_refl _
  | clearLog ts => simp [isClearOp] at h

/-- C6 witness: the append-only theorem applied to the physics-step
operation at a concrete mid-execution state. -/
theorem c6_witness :
    rcReady.execution_log <+:
      (applyRCOp (RCOp.physicsStep stepEnvDone) rcReady).execution_log ∧
    get_execution_log rcReady = rcReady.execution_log ∧
    applyRCOp RCOp.getLog rcReady = rcReady ∧
    (∀ ts m, (log_message ts m rcReady).execution_log =
      rcReady.execution_log ++ ["[" ++ ts ++ "] " ++ m]) :=
  c6_log_append_only (RCOp.physicsStep stepEnvDone) rcReady rfl

/-! ## Claim C7: status after clearing the scene -/

/-- C7 counterexample: clearing the scene does NOT always return the status
to "Ready": the stack extension's post-clear handler
(`RoboCopilotUI.post_clear_button_event`) sets the system status label to
"Scene Cleared". -/
theorem c7_scene_cleared_counterexample :
    (post_clear_button_event "10:09" stackReady).status_label_text = "Scene Cleared" ∧
    (post_clear_button_event "10:09" stackReady).status_label_text ≠ "Ready" := by
  refine ⟨rfl, ?_⟩
  intro h
  exact absurd ((rfl : (post_clear_button_event "10:09" stackReady).status_label_text
    = "Scene Cleared").symm.trans h) (by decide)

/-- C7 amended: in the chat extension, `_on_clear_scene` resets the task
status label to "Ready" whenever none of its host calls (stop, world clear,
stage creation) raises; in the stack extension, the post-clear handler
instead sets the status to "Scene Cleared" and disables the execute
control. -/
theorem c7_clear_status_amended (env : ClearEnv) (s : UIState) (ts : String)
    (t : StackState) (h1 : env.stopRaises = none) (h2 : env.clearRaises = none)
    (h3 : env.stageRaises = none) :
    (on_clear_scene env s).status_label_text = "Ready" ∧
    (post_clear_button_event ts t).status_label_text = "Scene Cleared" ∧
    (post_clear_button_event ts t).execute_enabled = false := by
  refine ⟨?_, rfl, rfl⟩
  rcases hw : s.world with _ | w
  · rcases hs : s.sample with _ | rc <;>
      simp [on_clear_scene, clearPhaseStop, clearPhaseCleanup, clearPhaseWorld,
        clearPhaseStage, pyBind, pyCatch, h1, h2, h3, ui_add_chat_message, hw, hs]
  · rcases hs : s.sample with _ | rc <;> cases hp : w.playing <;>
      simp [on_clear_scene, clearPhaseStop, clearPhaseCleanup, clearPhaseWorld,
        clearPhaseStage, pyBind, pyCatch, h1, h2, h3, ui_add_chat_message, hw, hs, hp]

/-- C7 witness: the amended theorem applied to the no-raise environment at a
concrete loaded state. -/
theorem c7_witness :
    (on_clear_scene clearEnv0 uiReady).status_label_text = "Ready" ∧
    (post_clear_button_event "10:09" stackReady).status_label_text = "Scene Cleared" ∧
    (post_clear_button_event "10:09" stackReady).execute_enabled = false :=
  c7_clear_status_amended clearEnv0 uiReady "10:09" stackReady rfl rfl rfl

/-! ## Claim C8: what the reset action actually clears -/

/-- C8 counterexample: performing the reset action does NOT clear the
controller and articulation references.  At a fully set-up state, after
`setup_pre_reset` completes (status "Reset completed"), both references are
still non-null: the method calls `self._controller.reset()` but never assigns
`self._controller` or `self._articulation_controller`. -/
theorem c8_reset_keeps_refs_counterexample :
    rcReady.controller = true ∧
    rcReady.articulation_controller = true ∧
    (setup_pre_reset preResetEnv0 rcReady).controller = true ∧
    (setup_pre_reset preResetEnv0 rcReady).articulation_controller = true ∧
    (setup_pre_reset preResetEnv0 rcReady).current_status = "Reset completed" :=
  ⟨rfl, rfl, rfl, rfl, rfl⟩

/-- The controller and articulation references of `u` agree with those of
`s`. -/
def SameRefs (s u : RCState) : Prop :=
  u.controller = s.controller ∧ u.articulation_controller = s.articulation_controller

theorem sameRefs_refl (s : RCState) : SameRefs s s := ⟨rfl, rfl⟩

theorem sameRefs_trans {s u v : RCState} (h1 : SameRefs s u) (h2 : SameRefs u v) :
    SameRefs s v := ⟨h2.1.trans h1.1, h2.2.trans h1.2⟩

theorem sameRefs_pyBind {ε : Type} (s : RCState) (r : RCState × Option ε)
    (f : RCState → RCState × Option ε)
    (h : SameRefs s r.1) (hf : ∀ u, SameRefs u (f u).1) :
    SameRefs s (pyBind r f).1 := by
  rcases r with ⟨u, e⟩
  cases e with
  | none => exact sameRefs_trans h (hf u)
  | some e => exact h

theorem sameRefs_pyCatch {ε : Type} (s : RCState) (handler : RCState → ε → RCState)
    (r : RCState × Option ε)
    (h : SameRefs s r.1) (hh : ∀ u e, SameRefs u (handler u e)) :
    SameRefs s (pyCatch handler r) := by
  rcases r with ⟨u, e⟩
  cases e with
  | none => exact h
  | some e => exact sameRefs_trans h (hh u e)

theorem removeIfExists_sameRefs (n : String) (r : Option String) (s : RCState) :
    SameRefs s (removeIfExists n r s).1 := by
  unfold removeIfExists
  rcases hw : s.world with _ | w
  · exact sameRefs_refl s
  · simp only [hw]
    split
    · rcases r with _ | e
      · exact ⟨rfl, rfl⟩
      · exact ⟨rfl, rfl⟩
    · exact sameRefs_refl s

theorem removeIfExists_ok (n : String) (s : RCState) :
    (removeIfExists n none s).2 = none := by
  unfold removeIfExists
  rcases hw : s.world with _ | w
  · rfl
  · simp only [hw]
    split
    · rfl
    · rfl

/-- C8 amended: the reset action leaves the controller and articulation
references exactly as they were (it removes the physics callbacks and resets
the controller object in place); the references are cleared to null by
`world_cleanup` — the scene-clear path — not by reset; and the stack
extension's post-reset handler re-enables the execute control and sets the
status to "Ready". -/
theorem c8_reset_amended (env : PreResetEnv) (s : RCState) (cenv : CleanupEnv)
    (u : RCState) (ts : String) (t : StackState)
    (h1 : cenv.removeSimRaises = none) (h2 : cenv.removeObsRaises = none) :
    ((setup_pre_reset env s).controller = s.controller ∧
     (setup_pre_reset env s).articulation_controller = s.articulation_controller) ∧
    ((world_cleanup cenv u).controller = false ∧
     (world_cleanup cenv u).articulation_controller = false) ∧
    ((post_reset_button_event ts t).execute_enabled = true ∧
     (post_reset_button_event ts t).status_label_text = "Ready") := by
  refine ⟨?_, ?_, rfl, rfl⟩
  · show SameRefs s (setup_pre_reset env s)
    unfold setup_pre_reset
    refine sameRefs_pyCatch s _ _ ?_ ?_
    · refine sameRefs_pyBind s _ _ (removeIfExists_sameRefs _ _ _) ?_
      intro u1
      refine sameRefs_pyBind u1 _ _ (removeIfExists_sameRefs _ _ _) ?_
      intro u2
      refine sameRefs_pyBind u2 _ _ ?_ ?_
      · split
        · exact sameRefs_refl u2
        · exact sameRefs_refl u2
      · intro u3
        exact ⟨rfl, rfl⟩
    · intro v e
      exact ⟨rfl, rfl⟩
  · unfold world_cleanup
    rw [h1, h2]
    rcases hr1 : removeIfExists "sim_step" none u with ⟨u1, e1⟩
    have he1 := removeIfExists_ok "sim_step" u
    rw [hr1] at he1
    subst he1
    rcases hr2 : removeIfExists "observations" none u1 with ⟨u2, e2⟩
    have he2 := removeIfExists_ok "observations" u1
    rw [hr2] at he2
    subst he2
    simp [pyBind, pyCatch, hr1, hr2, log_message]

/-- C8 witness: the amended theorem applied at concrete states. -/
theorem c8_witness :
    ((setup_pre_reset preResetEnv0 rcReady).controller = rcReady.controller ∧
     (setup_pre_reset preResetEnv0 rcReady).articulation_controller =
       rcReady.articulation_controller) ∧
    ((world_cleanup cleanupEnv0 rcReady).controller = false ∧
     (world_cleanup cleanupEnv0 rcReady).articulation_controller = false) ∧
    ((post_reset_button_event "10:10" stackReady).execute_enabled = true ∧
     (post_reset_button_event "10:10" stackReady).status_label_text = "Ready") :=
  c8_reset_amended preResetEnv0 rcReady cleanupEnv0 rcReady "10:10" stackReady rfl rfl

/-! ## Claim C9: the display shows the last ten messages -/

/-- C9: `_update_chat_display` (in both extensions) renders exactly the most
recent 10 chat messages — all of them when there are 10 or fewer
(`takeLast 10 msgs = msgs`) — without modifying the underlying list (the
display operation is the identity on `chat_messages`), while
`_add_chat_message` grows the list by one entry every time, so the list
itself is unbounded over the session. -/
theorem c9_display_last_ten (msgs : List ChatMsg) :
    (msgs.isEmpty = false →
      update_chat_display msgs =
        .messages ((takeLast 10 msgs).map renderChatMsg)) ∧
    (msgs.isEmpty = false →
      stack_update_chat_display msgs =
        .messages ((takeLast 10 msgs).map renderStackMsg)) ∧
    (takeLast 10 msgs).length = min 10 msgs.length ∧
    (msgs.length ≤ 10 → takeLast 10 msgs = msgs) ∧
    applyChatOp ChatOp.display msgs = msgs ∧
    (∀ sender text ts,
      (add_chat_message sender text ts msgs).length = msgs.length + 1) := by
  refine ⟨fun h => by simp [update_chat_display, h],
    fun h => by simp [stack_update_chat_display, h], ?_, ?_, rfl,
    fun sender text ts => by simp [add_chat_message]⟩
  · simp only [takeLast, List.length_drop]
    omega
  · intro h
    simp [takeLast, Nat.sub_eq_zero_of_le h]

/-- A concrete three-message chat history. -/
def msgs3 : List ChatMsg :=
  [{ sender := "User", text := "hello", timestamp := "10:11" },
   { sender := "RoboCopilot", text := "hi", timestamp := "10:11" },
   { sender := "User", text := "stack the cubes", timestamp := "10:12" }]

/-- C9 witness: the display theorem applied to a concrete three-message
history (non-empty and within the 10-message window). -/
theorem c9_witness :
    update_chat_display msgs3 = .messages ((takeLast 10 msgs3).map renderChatMsg) ∧
    stack_update_chat_display msgs3 =
      .messages ((takeLast 10 msgs3).map renderStackMsg) ∧
    (takeLast 10 msgs3).length = min 10 msgs3.length ∧
    takeLast 10 msgs3 = msgs3 ∧
    applyChatOp ChatOp.display msgs3 = msgs3 ∧
    (∀ sender text ts,
      (add_chat_message sender text ts msgs3).length = msgs3.length + 1) :=
  ⟨(c9_display_last_ten msgs3).1 rfl,
   (c9_display_last_ten msgs3).2.1 rfl,
   (c9_display_last_ten msgs3).2.2.1,
   (c9_display_last_ten msgs3).2.2.2.1 (by decide),
   (c9_display_last_ten msgs3).2.2.2.2.1,
   (c9_display_last_ten msgs3).2.2.2.2.2⟩
